import Mathlib

/-!
Verification of the blue/green ECS deployment orchestrator against its
natural-language specification.

The development shallowly embeds the constructs of
`lib/common/roles.ts` (the `EcsBlueGreenDeploymentHooks` construct),
`lib/ecs/deployment-group.ts` (the `EcsBlueGreenDeploymentGroup` and
`EcsBlueGreenPipeline` constructs) and the CloudFormation parameter of
the pipeline stack entry point.  CDK constructs are reduced to the data
the code reads from them: a construct handing its `listenerArn` to a
lambda environment becomes a record field of type `String`.
-/

namespace EcsBlueGreen

/-- The four lifecycle hook points of the deployment process
(spec data model, `LifecycleHook.name` enum). -/
inductive HookName where
  | BeforeInstall
  | AfterAllowTestTraffic
  | BeforeAllowTraffic
  | AfterAllowTraffic
deriving DecidableEq, Repr

/-- The fixed order in which the deployment lifecycle visits the four
explicit hook points. -/
def lifecycleOrder : List HookName :=
  [.BeforeInstall, .AfterAllowTestTraffic, .BeforeAllowTraffic, .AfterAllowTraffic]

/-- The handler module string each hook point's lambda is declared with
(`handler:` field in `lib/common/roles.ts`). -/
def hookHandlerModule : HookName → String
  | .BeforeInstall => "before_install.handler"
  | .AfterAllowTestTraffic => "after_allow_test_traffic.handler"
  | .BeforeAllowTraffic => "before_allow_traffic.handler"
  | .AfterAllowTraffic => "after_allow_traffic.handler"

/-- A `lambda.Function` declaration, reduced to the fields the claims
are about. -/
structure LambdaFunction where
  functionName : String
  handler : String
  description : String
  environment : List (String × String)
  memorySize : Nat
  timeoutSeconds : Nat
deriving DecidableEq, Repr

/-- `EcsBlueGreenDeploymentHookProps` of `lib/common/roles.ts`: the
constructs are reduced to the ARNs the constructor reads from them
(`loadBalancerArn`, `targetGroupArn`, `listenerArn`). -/
structure EcsBlueGreenDeploymentHookProps where
  albArn : String
  targetGroupXArn : String
  targetGroupYArn : String
  prodListenerArn : String
deriving DecidableEq, Repr

/-- `DeploymentHook` of `lib/common/roles.ts`. -/
structure DeploymentHook where
  name : String
deriving DecidableEq, Repr

/-- `private readonly httpHeaderName` of `EcsBlueGreenDeploymentHooks`. -/
def httpHeaderName : String := "counter_no"

/-- `private readonly httpHeaderValueList` of `EcsBlueGreenDeploymentHooks`. -/
def httpHeaderValueList : String := "88888,99999"

/-- The `BeforeInstallLambda` declaration of the hooks constructor. -/
def mkBeforeInstallLambda (props : EcsBlueGreenDeploymentHookProps) : LambdaFunction :=
  { functionName := "blue-green-ecs-before-install"
    handler := "before_install.handler"
    description := "Deployment lifecycle hook to clean up listener rules before install replacement taskset"
    environment :=
      [("APP_ALB", props.albArn),
       ("ALB_PROD_LISTENER", props.prodListenerArn)]
    memorySize := 128
    timeoutSeconds := 60 }

/-- The `afterAllowTestTrafficLambda` declaration of the hooks constructor. -/
def mkAfterAllowTestTrafficLambda (props : EcsBlueGreenDeploymentHookProps) : LambdaFunction :=
  { functionName := "blue-green-ecs-after-allow-test-traffic"
    handler := "after_allow_test_traffic.handler"
    description := "Deployment lifecycle hook for testing"
    environment :=
      [("APP_ALB", props.albArn),
       ("ALB_TG_X", props.targetGroupXArn),
       ("ALB_TG_Y", props.targetGroupYArn),
       ("ALB_PROD_LISTENER", props.prodListenerArn),
       ("HTTP_HEADER_NAME", httpHeaderName),
       ("HTTP_HEADER_VALUE_LIST", httpHeaderValueList)]
    memorySize := 128
    timeoutSeconds := 60 }

/-- The `beforeAllowTrafficLambda` declaration of the hooks constructor. -/
def mkBeforeAllowTrafficLambda (props : EcsBlueGreenDeploymentHookProps) : LambdaFunction :=
  { functionName := "blue-green-ecs-before-allow-traffic"
    handler := "before_allow_traffic.handler"
    description := "Deployment lifecycle hook to clean up tests"
    environment :=
      [("APP_ALB", props.albArn),
       ("ALB_PROD_LISTENER", props.prodListenerArn)]
    memorySize := 128
    timeoutSeconds := 60 }

/-- The state built by the `EcsBlueGreenDeploymentHooks` constructor of
`lib/common/roles.ts`. -/
structure EcsBlueGreenDeploymentHooks where
  beforeInstallLambda : LambdaFunction
  afterAllowTestTrafficLambda : LambdaFunction
  beforeAllowTrafficLambda : LambdaFunction
  deploymentHooks : List DeploymentHook
deriving DecidableEq, Repr

/-- The `EcsBlueGreenDeploymentHooks` constructor: declares the three
hook lambdas and pushes a `DeploymentHook` per lambda function name
onto `deploymentHooks`, in source order. -/
def ecsBlueGreenDeploymentHooks (props : EcsBlueGreenDeploymentHookProps) :
    EcsBlueGreenDeploymentHooks :=
  let beforeInstallLambda := mkBeforeInstallLambda props
  let afterAllowTestTrafficLambda := mkAfterAllowTestTrafficLambda props
  let beforeAllowTrafficLambda := mkBeforeAllowTrafficLambda props
  { beforeInstallLambda := beforeInstallLambda
    afterAllowTestTrafficLambda := afterAllowTestTrafficLambda
    beforeAllowTrafficLambda := beforeAllowTrafficLambda
    deploymentHooks :=
      [⟨beforeInstallLambda.functionName⟩,
       ⟨afterAllowTestTrafficLambda.functionName⟩,
       ⟨beforeAllowTrafficLambda.functionName⟩] }

/-- A CloudFormation custom-resource property value:
`JSON.stringify` of the alarm list is kept abstract as `jsonOfAlarms`. -/
inductive PropValue where
  | str : String → PropValue
  | num : Nat → PropValue
  | jsonOfAlarms : List String → PropValue
deriving DecidableEq, Repr

/-- `EcsBlueGreenDeploymentGroupProps` of `lib/ecs/deployment-group.ts`.
The construct dereferences every optional field with a non-null
assertion, so the embedding makes them plain;
`TargetGroupAlarm` values are reduced to their alarm names. -/
structure EcsBlueGreenDeploymentGroupProps where
  deploymentGroupName : String
  deploymentConfigName : String
  terminationWaitTime : Nat
  deploymentReadyWaitTime : Nat
  blueTargetGroupName : String
  greenTargetGroupName : String
  targetGroupAlarms : List String
  prodListenerArn : String
  testListenerArn : String
  ecsClusterName : String
  ecsServiceName : String
deriving DecidableEq, Repr

/-- The imported deployment-group handle produced by
`EcsDeploymentGroup.fromEcsDeploymentGroupAttributes`. -/
structure EcsDeploymentGroupHandle where
  applicationName : String
  deploymentGroupName : String
  deploymentConfigName : String
deriving DecidableEq, Repr

/-- The `customEcsDeploymentGroup` `CustomResource` declaration. -/
structure CustomResource where
  serviceToken : String
  properties : List (String × PropValue)
deriving DecidableEq, Repr

/-- The state built by the `EcsBlueGreenDeploymentGroup` constructor of
`lib/ecs/deployment-group.ts`.  `constructPath` records the construct
id the instance was created under (used by `node.addDependency`);
CDK-generated names and ARNs are derived from it. -/
structure EcsBlueGreenDeploymentGroup where
  constructPath : String
  ecsApplicationName : String
  codeDeployServiceRoleArn : String
  createDeploymentGroupLambdaArn : String
  customEcsDeploymentGroup : CustomResource
  ecsDeploymentGroup : EcsDeploymentGroupHandle
deriving DecidableEq, Repr

/-- The `EcsBlueGreenDeploymentGroup` constructor: creates the CodeDeploy
application, the service roles and the `createDeploymentGroupLambda`,
then registers the deployment group via the custom resource, with the
property record copied verbatim from the source, and finally imports the
group by `props.deploymentGroupName`. -/
def mkEcsBlueGreenDeploymentGroup (constructPath : String)
    (props : EcsBlueGreenDeploymentGroupProps) : EcsBlueGreenDeploymentGroup :=
  let ecsApplicationName := constructPath ++ "/ecsApplication"
  let codeDeployServiceRoleArn := constructPath ++ "/ecsCodeDeployServiceRole"
  let createDeploymentGroupLambdaArn := constructPath ++ "/createDeploymentGroupLambda"
  { constructPath := constructPath
    ecsApplicationName := ecsApplicationName
    codeDeployServiceRoleArn := codeDeployServiceRoleArn
    createDeploymentGroupLambdaArn := createDeploymentGroupLambdaArn
    customEcsDeploymentGroup :=
      { serviceToken := createDeploymentGroupLambdaArn
        properties :=
          [("ApplicationName", .str ecsApplicationName),
           ("DeploymentGroupName", .str props.deploymentGroupName),
           ("DeploymentConfigName", .str props.deploymentConfigName),
           ("ServiceRoleArn", .str codeDeployServiceRoleArn),
           ("BlueTargetGroup", .str props.blueTargetGroupName),
           ("GreenTargetGroup", .str props.greenTargetGroupName),
           ("ProdListenerArn", .str props.prodListenerArn),
           ("TestListenerArn", .str props.testListenerArn),
           ("TargetGroupAlarms", .jsonOfAlarms props.targetGroupAlarms),
           ("EcsClusterName", .str props.ecsClusterName),
           ("EcsServiceName", .str props.ecsServiceName),
           ("TerminationWaitTime", .num props.terminationWaitTime),
           ("DeploymentReadyWaitTime", .num props.deploymentReadyWaitTime)] }
    ecsDeploymentGroup :=
      { applicationName := ecsApplicationName
        deploymentGroupName := props.deploymentGroupName
        deploymentConfigName := props.deploymentConfigName } }

/-- A CloudFormation stack parameter, reduced to the fields the pipeline
stack declares. -/
structure CfnParameter where
  paramType : String
  defaultValue : String
  allowedValues : List String
  description : String
deriving DecidableEq, Repr

/-- The `deploymentConfigName` `CfnParameter` of the
`BlueGreenPipelineStack` entry point. -/
def deploymentConfigNameParameter : CfnParameter :=
  { paramType := "String"
    defaultValue := "CodeDeployDefault.ECSLinear10PercentEvery1Minutes"
    allowedValues :=
      ["CodeDeployDefault.ECSLinear10PercentEvery1Minutes",
       "CodeDeployDefault.ECSLinear10PercentEvery3Minutes",
       "CodeDeployDefault.ECSCanary10Percent5Minutes",
       "CodeDeployDefault.ECSCanary10Percent15Minutes",
       "CodeDeployDefault.ECSAllAtOnce"]
    description := "Shifts x percentage of traffic every x minutes until all traffic is shifted" }

/-- The outputs of the `EcsBlueGreenService` and `EcsServiceAlarms`
constructs that `EcsBlueGreenPipeline` reads (their own sources are not
part of the verified core): the ALB and listener ARNs, both target
groups, the service name and the alarm names. -/
structure EcsBlueGreenServiceOutputs where
  albArn : String
  albProdListenerArn : String
  albTestListenerArn : String
  blueTargetGroupName : String
  greenTargetGroupName : String
  blueTargetGroupArn : String
  greenTargetGroupArn : String
  ecsServiceName : String
  targetGroupAlarms : List String
deriving DecidableEq, Repr

/-- `EcsBlueGreenPipelineProps` of `lib/ecs/deployment-group.ts`,
reduced to the fields the deployment-group and hook wiring reads. -/
structure EcsBlueGreenPipelineProps where
  codeRepoName : String
  ecrRepoName : String
  codeBuildProjectName : String
  ecsTaskRoleArn : String
  apiName : String
  ecsClusterName : String
  taskSetTerminationTimeInMinutes : Nat
  deploymentReadyWaitTimeinMinutes : Nat
  deploymentConfigName : String
deriving DecidableEq, Repr

/-- A CodePipeline action, reduced to the data each constructor is
given in the source. -/
inductive PipelineAction where
  | codeCommitSource (actionName repositoryName branch : String)
  | codeBuild (actionName projectName : String)
  | codeDeployEcsDeploy (actionName : String) (deploymentGroup : EcsDeploymentGroupHandle)
deriving DecidableEq, Repr

/-- A CodePipeline stage. -/
structure PipelineStage where
  stageName : String
  actions : List PipelineAction
deriving DecidableEq, Repr

/-- The `codePipeline.Pipeline`, with the construct paths registered by
`node.addDependency`. -/
structure Pipeline where
  stages : List PipelineStage
  nodeDependencies : List String
deriving DecidableEq, Repr

/-- The state built by the `EcsBlueGreenPipeline` constructor that the
claims are about. -/
structure EcsBlueGreenPipeline where
  ecsBlueGreenDeploymentGroup : EcsBlueGreenDeploymentGroup
  hooks : EcsBlueGreenDeploymentHooks
  pipeline : Pipeline
deriving DecidableEq, Repr

/-- The `EcsBlueGreenPipeline` constructor of `lib/ecs/deployment-group.ts`:
builds the deployment group from the service outputs and pipeline props,
builds the hooks from the ALB, both target groups and the production
listener, declares the three pipeline stages with the Deploy stage
targeting the deployment group just created, and adds a node dependency
on the deployment-group construct. -/
def mkEcsBlueGreenPipeline (constructPath : String)
    (svc : EcsBlueGreenServiceOutputs) (props : EcsBlueGreenPipelineProps) :
    EcsBlueGreenPipeline :=
  let ecsBlueGreenDeploymentGroup :=
    mkEcsBlueGreenDeploymentGroup (constructPath ++ "/ecsApplication")
      { ecsClusterName := props.ecsClusterName
        ecsServiceName := svc.ecsServiceName
        prodListenerArn := svc.albProdListenerArn
        testListenerArn := svc.albTestListenerArn
        blueTargetGroupName := svc.blueTargetGroupName
        greenTargetGroupName := svc.greenTargetGroupName
        terminationWaitTime := props.taskSetTerminationTimeInMinutes
        deploymentReadyWaitTime := props.deploymentReadyWaitTimeinMinutes
        deploymentConfigName := props.deploymentConfigName
        deploymentGroupName := props.apiName
        targetGroupAlarms := svc.targetGroupAlarms }
  let hooks :=
    ecsBlueGreenDeploymentHooks
      { albArn := svc.albArn
        targetGroupXArn := svc.blueTargetGroupArn
        targetGroupYArn := svc.greenTargetGroupArn
        prodListenerArn := svc.albProdListenerArn }
  { ecsBlueGreenDeploymentGroup := ecsBlueGreenDeploymentGroup
    hooks := hooks
    pipeline :=
      { stages :=
          [{ stageName := "Source"
             actions := [.codeCommitSource "Source" props.codeRepoName "main"] },
           { stageName := "Build"
             actions := [.codeBuild "Build" props.codeBuildProjectName] },
           { stageName := "Deploy"
             actions := [.codeDeployEcsDeploy "Deploy"
               ecsBlueGreenDeploymentGroup.ecsDeploymentGroup] }]
        nodeDependencies := [ecsBlueGreenDeploymentGroup.constructPath] } }

/-- Registrar failure taxonomy (spec error-handling design). -/
inductive RegistrarError where
  | RegistrationConflict
  | InvalidConfig
deriving DecidableEq, Repr

/-- A logical deployment-group record held by the registrar: the
structural identity (name, application, target-group pair, listeners)
plus the mutable fields (config name, alarms, wait times). -/
structure DeploymentGroupRecord where
  deploymentGroupName : String
  applicationName : String
  blueTargetGroup : String
  greenTargetGroup : String
  prodListenerArn : String
  testListenerArn : String
  ecsClusterName : String
  ecsServiceName : String
  deploymentConfigName : String
  alarms : List String
  terminationWaitTime : Nat
  deploymentReadyWaitTime : Nat
deriving DecidableEq, Repr

/-- Update in place the mutable fields of an existing record from a
fresh upsert input (alarms, wait times, config name), never touching
the structural identity. -/
def updateMutableFields (old g : DeploymentGroupRecord) : DeploymentGroupRecord :=
  { old with
    deploymentConfigName := g.deploymentConfigName
    alarms := g.alarms
    terminationWaitTime := g.terminationWaitTime
    deploymentReadyWaitTime := g.deploymentReadyWaitTime }

/-- The structural identity of a record (immutable across upserts):
the target-group pair. -/
def sameTargetGroupPair (e g : DeploymentGroupRecord) : Bool :=
  e.blueTargetGroup == g.blueTargetGroup && e.greenTargetGroup == g.greenTargetGroup

/-- Modelled from the spec: the registrar handler
`create_deployment_group.py` (referenced by `createDeploymentGroupLambda`
in `lib/ecs/deployment-group.ts`) is not under `src/`.  Per the spec, an
unknown deployment-config name signals `InvalidConfig`; if no group with
the given name exists it is created; if one exists with a different
target-group pair the upsert signals `RegistrationConflict`; otherwise
the mutable fields are updated in place, never recreating the group. -/
def upsert (st : List DeploymentGroupRecord) (g : DeploymentGroupRecord) :
    Except RegistrarError (List DeploymentGroupRecord) :=
  if deploymentConfigNameParameter.allowedValues.contains g.deploymentConfigName then
    match st.find? (fun e => e.deploymentGroupName == g.deploymentGroupName) with
    | some e =>
        if sameTargetGroupPair e g then
          .ok (st.map (fun e =>
            if e.deploymentGroupName == g.deploymentGroupName
            then updateMutableFields e g else e))
        else .error .RegistrationConflict
    | none => .ok (st ++ [g])
  else .error .InvalidConfig

/-- The number of groups registered under a given name. -/
def groupsNamed (st : List DeploymentGroupRecord) (name : String) : Nat :=
  st.countP (fun e => e.deploymentGroupName == name)

/-- A routing rule on a load-balancer listener (spec data model
`ListenerRule`): listener identity, header-match condition, target. -/
structure ListenerRule where
  listenerArn : String
  headerName : String
  headerValues : List String
  targetGroupArn : String
deriving DecidableEq, Repr

/-- Modelled from the spec: the AfterAllowTestTraffic handler body
`after_allow_test_traffic.py` is not under `src/`.  Per the spec,
`isolateTestTraffic` installs the header-match rule on the listener,
and re-running it with identical parameters must not create a
duplicate rule. -/
def isolateTestTraffic (rules : List ListenerRule) (r : ListenerRule) :
    List ListenerRule :=
  if r ∈ rules then rules else rules ++ [r]

/-- The two interchangeable service slots (spec design note: a
two-element enumerated role). -/
inductive Slot where
  | blue
  | green
deriving DecidableEq, Repr

/-- The other slot. -/
def Slot.other : Slot → Slot
  | .blue => .green
  | .green => .blue

/-- Status of a deployment attempt in the cutover state machine. -/
inductive DeploymentStatus where
  | running
  | succeeded
  | failedAlarmTriggered
deriving DecidableEq, Repr

/-- State of the cutover state machine: the slot active before the
deployment began, where the production listener routes (slot holding
the remaining share, plus the percentage already shifted to the
replacement), the number of test-isolation rules installed, and the
deployment status. -/
structure CutoverState where
  originalSlot : Slot
  prodTrafficSlot : Slot
  percentShifted : Nat
  testRuleCount : Nat
  status : DeploymentStatus
deriving DecidableEq, Repr

/-- Events driving the cutover state machine: the three explicit hooks
plus one traffic-shift increment, which observes whether a bound alarm
fired during the step. -/
inductive CutoverEvent where
  | beforeInstall
  | afterAllowTestTraffic
  | beforeAllowTraffic
  | shiftStep (alarmFired : Bool)
deriving DecidableEq, Repr

/-- Modelled from the spec: the cutover sequence is driven by the
external deployment process together with the hook handler bodies
(`before_install.py`, `after_allow_test_traffic.py`,
`before_allow_traffic.py`), none of which are under `src/`.  Per the
spec hook table: BeforeInstall clears the listener rules,
AfterAllowTestTraffic installs exactly one test-isolation rule,
BeforeAllowTraffic removes it; each traffic-shift increment moves 10%
to the replacement slot while polling alarms, and an alarm firing
aborts the shift, reverting the production listener to the original
slot and clearing any test-isolation rule; a finished deployment
(succeeded or failed) accepts no further events. -/
def cutoverStep (s : CutoverState) (e : CutoverEvent) : CutoverState :=
  if s.status = .running then
    match e with
    | .beforeInstall => { s with testRuleCount := 0 }
    | .afterAllowTestTraffic => { s with testRuleCount := 1 }
    | .beforeAllowTraffic => { s with testRuleCount := 0 }
    | .shiftStep alarmFired =>
        if alarmFired then
          { s with
            prodTrafficSlot := s.originalSlot
            percentShifted := 0
            testRuleCount := 0
            status := .failedAlarmTriggered }
        else if 100 ≤ s.percentShifted + 10 then
          { s with
            percentShifted := 100
            prodTrafficSlot := s.originalSlot.other
            status := .succeeded }
        else { s with percentShifted := s.percentShifted + 10 }
  else s

/-- Run the cutover state machine over a sequence of events. -/
def cutoverRun (s : CutoverState) (es : List CutoverEvent) : CutoverState :=
  es.foldl cutoverStep s

/-- The state at the start of a deployment attempt: the production
listener routes 100% of traffic to the slot active before the
deployment began and no test-isolation rule exists. -/
def cutoverInit (original : Slot) : CutoverState :=
  { originalSlot := original
    prodTrafficSlot := original
    percentShifted := 0
    testRuleCount := 0
    status := .running }

/-- Split a character sequence at commas (the encoding used by
`HTTP_HEADER_VALUE_LIST`). -/
def splitOnComma : List Char → List (List Char)
  | [] => [[]]
  | c :: cs =>
      let rest := splitOnComma cs
      if c = ',' then [] :: rest
      else match rest with
        | [] => [[c]]
        | h :: t => (c :: h) :: t

/-- Decimal value of a digit sequence. -/
def parseDecimal (cs : List Char) : Nat :=
  cs.foldl (fun n c => n * 10 + (c.toNat - 48)) 0

/-- The thirteen fields of the registrar invocation contract, in
source order. -/
def registrarContractFields : List String :=
  ["ApplicationName", "DeploymentGroupName", "DeploymentConfigName",
   "ServiceRoleArn", "BlueTargetGroup", "GreenTargetGroup",
   "ProdListenerArn", "TestListenerArn", "TargetGroupAlarms",
   "EcsClusterName", "EcsServiceName", "TerminationWaitTime",
   "DeploymentReadyWaitTime"]

/-- Concrete service outputs used to instantiate the pipeline on a
specific input; all ARNs and names are pairwise distinct. -/
def svcExample : EcsBlueGreenServiceOutputs :=
  { albArn := "arn:aws:elasticloadbalancing:alb/books"
    albProdListenerArn := "arn:aws:elasticloadbalancing:listener/prod"
    albTestListenerArn := "arn:aws:elasticloadbalancing:listener/test"
    blueTargetGroupName := "blueTargetGroup"
    greenTargetGroupName := "greenTargetGroup"
    blueTargetGroupArn := "arn:aws:elasticloadbalancing:targetgroup/blue"
    greenTargetGroupArn := "arn:aws:elasticloadbalancing:targetgroup/green"
    ecsServiceName := "books-service"
    targetGroupAlarms := ["blueUnhealthyHosts", "greenUnhealthyHosts"] }

/-- Concrete pipeline props used to instantiate the pipeline on a
specific input. -/
def pipelinePropsExample : EcsBlueGreenPipelineProps :=
  { codeRepoName := "books"
    ecrRepoName := "books-ecr"
    codeBuildProjectName := "books-build"
    ecsTaskRoleArn := "arn:aws:iam:role/ecsTaskRole"
    apiName := "books"
    ecsClusterName := "books-cluster"
    taskSetTerminationTimeInMinutes := 10
    deploymentReadyWaitTimeinMinutes := 0
    deploymentConfigName := "CodeDeployDefault.ECSLinear10PercentEvery1Minutes" }

/-- C1: the hooks component declares exactly three explicit hook
handlers, whose handler modules are those of the hook points
BeforeInstall, AfterAllowTestTraffic and BeforeAllowTraffic (a subset
of the four-name enum), and registers them in its `deploymentHooks`
list in that fixed lifecycle order (the first three entries of the
lifecycle order). -/
theorem hooks_registered_in_lifecycle_order
    (props : EcsBlueGreenDeploymentHookProps) :
    (ecsBlueGreenDeploymentHooks props).deploymentHooks =
      [⟨"blue-green-ecs-before-install"⟩,
       ⟨"blue-green-ecs-after-allow-test-traffic"⟩,
       ⟨"blue-green-ecs-before-allow-traffic"⟩] ∧
    [(ecsBlueGreenDeploymentHooks props).beforeInstallLambda.handler,
     (ecsBlueGreenDeploymentHooks props).afterAllowTestTrafficLambda.handler,
     (ecsBlueGreenDeploymentHooks props).beforeAllowTrafficLambda.handler] =
      [HookName.BeforeInstall, HookName.AfterAllowTestTraffic,
       HookName.BeforeAllowTraffic].map hookHandlerModule ∧
    [HookName.BeforeInstall, HookName.AfterAllowTestTraffic,
     HookName.BeforeAllowTraffic] = lifecycleOrder.take 3 :=
  ⟨rfl, rfl, rfl⟩

/-- C2: for every instance of the hooks component, the
AfterAllowTestTraffic handler is passed the fixed header name
`counter_no` and the fixed accepted value list `88888,99999`, which
parses to exactly the numbers 88888 and 99999. -/
theorem afterAllowTestTraffic_fixed_header
    (props : EcsBlueGreenDeploymentHookProps) :
    ((ecsBlueGreenDeploymentHooks props).afterAllowTestTrafficLambda.environment.lookup
        "HTTP_HEADER_NAME") = some "counter_no" ∧
    ((ecsBlueGreenDeploymentHooks props).afterAllowTestTrafficLambda.environment.lookup
        "HTTP_HEADER_VALUE_LIST") = some "88888,99999" ∧
    (splitOnComma httpHeaderValueList.data).map parseDecimal = [88888, 99999] := by
  refine ⟨?_, ?_, by decide⟩ <;>
    simp [ecsBlueGreenDeploymentHooks, mkAfterAllowTestTrafficLambda,
      List.lookup, httpHeaderName, httpHeaderValueList]

/-- C3 counterexample: at a concrete pipeline instance whose listener
ARNs are distinct, the AfterAllowTestTraffic handler's listener input
(`ALB_PROD_LISTENER`) carries the production listener ARN, and the
test listener ARN appears nowhere in the handler's environment —
refuting that the handler is given the test listener as its listener
input. -/
theorem afterAllowTestTraffic_not_given_test_listener :
    ((mkEcsBlueGreenPipeline "pipeline" svcExample pipelinePropsExample).hooks.afterAllowTestTrafficLambda.environment.lookup
        "ALB_PROD_LISTENER") = some svcExample.albProdListenerArn ∧
    svcExample.albProdListenerArn ≠ svcExample.albTestListenerArn ∧
    svcExample.albTestListenerArn ∉
      (mkEcsBlueGreenPipeline "pipeline" svcExample pipelinePropsExample).hooks.afterAllowTestTrafficLambda.environment.map
        Prod.snd := by
  refine ⟨rfl, by decide, by decide⟩

/-- C3 amended: the AfterAllowTestTraffic handler is given the
production listener as its listener input: for every pipeline
instance, its environment is exactly the ALB ARN, the two target-group
ARNs, the production listener ARN and the fixed header configuration —
in particular its only listener input is the production listener. -/
theorem afterAllowTestTraffic_given_prod_listener
    (constructPath : String) (svc : EcsBlueGreenServiceOutputs)
    (props : EcsBlueGreenPipelineProps) :
    (mkEcsBlueGreenPipeline constructPath svc props).hooks.afterAllowTestTrafficLambda.environment =
      [("APP_ALB", svc.albArn),
       ("ALB_TG_X", svc.blueTargetGroupArn),
       ("ALB_TG_Y", svc.greenTargetGroupArn),
       ("ALB_PROD_LISTENER", svc.albProdListenerArn),
       ("HTTP_HEADER_NAME", "counter_no"),
       ("HTTP_HEADER_VALUE_LIST", "88888,99999")] :=
  rfl

/-- C4 counterexample: at a concrete pipeline instance, the
BeforeInstall handler's environment holds only the ALB ARN and the
production listener ARN: the test listener ARN and both target-group
ARNs appear nowhere in it — refuting that every hook handler receives
the full input set of the hook invocation contract. -/
theorem beforeInstall_not_given_full_inputs :
    ((mkEcsBlueGreenPipeline "pipeline" svcExample pipelinePropsExample).hooks.beforeInstallLambda.environment.map
        Prod.fst) = ["APP_ALB", "ALB_PROD_LISTENER"] ∧
    svcExample.albTestListenerArn ∉
      (mkEcsBlueGreenPipeline "pipeline" svcExample pipelinePropsExample).hooks.beforeInstallLambda.environment.map
        Prod.snd ∧
    svcExample.blueTargetGroupArn ∉
      (mkEcsBlueGreenPipeline "pipeline" svcExample pipelinePropsExample).hooks.beforeInstallLambda.environment.map
        Prod.snd ∧
    svcExample.greenTargetGroupArn ∉
      (mkEcsBlueGreenPipeline "pipeline" svcExample pipelinePropsExample).hooks.beforeInstallLambda.environment.map
        Prod.snd := by
  refine ⟨rfl, by decide, by decide, by decide⟩

/-- C4 amended: every hook handler receives the ALB reference and the
production-listener reference; only the AfterAllowTestTraffic handler
additionally receives the two target-group references (plus the header
configuration); no handler receives the test-listener reference. -/
theorem hooks_receive_alb_and_prod_listener
    (props : EcsBlueGreenDeploymentHookProps) :
    (ecsBlueGreenDeploymentHooks props).beforeInstallLambda.environment =
      [("APP_ALB", props.albArn), ("ALB_PROD_LISTENER", props.prodListenerArn)] ∧
    (ecsBlueGreenDeploymentHooks props).afterAllowTestTrafficLambda.environment =
      [("APP_ALB", props.albArn),
       ("ALB_TG_X", props.targetGroupXArn),
       ("ALB_TG_Y", props.targetGroupYArn),
       ("ALB_PROD_LISTENER", props.prodListenerArn),
       ("HTTP_HEADER_NAME", "counter_no"),
       ("HTTP_HEADER_VALUE_LIST", "88888,99999")] ∧
    (ecsBlueGreenDeploymentHooks props).beforeAllowTrafficLambda.environment =
      [("APP_ALB", props.albArn), ("ALB_PROD_LISTENER", props.prodListenerArn)] :=
  ⟨rfl, rfl, rfl⟩

/-- C5: the registrar custom resource is invoked with exactly the
thirteen fields of the registrar invocation contract, each carrying
the corresponding configured value, and it is keyed on the
deployment-group name (both the custom-resource property and the
imported handle carry `props.deploymentGroupName`). -/
theorem registrar_invoked_with_contract_fields
    (constructPath : String) (props : EcsBlueGreenDeploymentGroupProps) :
    ((mkEcsBlueGreenDeploymentGroup constructPath props).customEcsDeploymentGroup.properties.map
        Prod.fst) = registrarContractFields ∧
    (mkEcsBlueGreenDeploymentGroup constructPath props).customEcsDeploymentGroup.properties =
      [("ApplicationName", .str (constructPath ++ "/ecsApplication")),
       ("DeploymentGroupName", .str props.deploymentGroupName),
       ("DeploymentConfigName", .str props.deploymentConfigName),
       ("ServiceRoleArn", .str (constructPath ++ "/ecsCodeDeployServiceRole")),
       ("BlueTargetGroup", .str props.blueTargetGroupName),
       ("GreenTargetGroup", .str props.greenTargetGroupName),
       ("ProdListenerArn", .str props.prodListenerArn),
       ("TestListenerArn", .str props.testListenerArn),
       ("TargetGroupAlarms", .jsonOfAlarms props.targetGroupAlarms),
       ("EcsClusterName", .str props.ecsClusterName),
       ("EcsServiceName", .str props.ecsServiceName),
       ("TerminationWaitTime", .num props.terminationWaitTime),
       ("DeploymentReadyWaitTime", .num props.deploymentReadyWaitTime)] ∧
    (mkEcsBlueGreenDeploymentGroup constructPath props).ecsDeploymentGroup.deploymentGroupName =
      props.deploymentGroupName :=
  ⟨rfl, rfl, rfl⟩

/-- C6: the deployment-config name exposed on the configuration
surface is drawn from a closed set of exactly the five CodeDeploy ECS
policies, with `ECSLinear10PercentEvery1Minutes` as the default. -/
theorem deploymentConfig_closed_set :
    deploymentConfigNameParameter.allowedValues =
      ["ECSLinear10PercentEvery1Minutes", "ECSLinear10PercentEvery3Minutes",
       "ECSCanary10Percent5Minutes", "ECSCanary10Percent15Minutes",
       "ECSAllAtOnce"].map (fun policy => "CodeDeployDefault." ++ policy) ∧
    deploymentConfigNameParameter.defaultValue =
      "CodeDeployDefault." ++ "ECSLinear10PercentEvery1Minutes" ∧
    deploymentConfigNameParameter.defaultValue ∈
      deploymentConfigNameParameter.allowedValues := by
  refine ⟨by decide, by decide, by decide⟩

/-- C10: for every instance of `EcsBlueGreenPipeline`, the pipeline's
stages are Source, Build and Deploy, the Deploy stage's single action
targets exactly the deployment-group handle created by the same
instance's registrar construct, and the pipeline node carries an
explicit dependency on that deployment-group construct, so group
registration completes before the pipeline exists. -/
theorem pipeline_deploy_targets_own_group
    (constructPath : String) (svc : EcsBlueGreenServiceOutputs)
    (props : EcsBlueGreenPipelineProps) :
    (mkEcsBlueGreenPipeline constructPath svc props).pipeline.stages =
      [{ stageName := "Source"
         actions := [.codeCommitSource "Source" props.codeRepoName "main"] },
       { stageName := "Build"
         actions := [.codeBuild "Build" props.codeBuildProjectName] },
       { stageName := "Deploy"
         actions := [.codeDeployEcsDeploy "Deploy"
           (mkEcsBlueGreenPipeline constructPath svc props).ecsBlueGreenDeploymentGroup.ecsDeploymentGroup] }] ∧
    (mkEcsBlueGreenPipeline constructPath svc props).ecsBlueGreenDeploymentGroup.constructPath ∈
      (mkEcsBlueGreenPipeline constructPath svc props).pipeline.nodeDependencies :=
  ⟨rfl, List.mem_singleton.mpr rfl⟩

/-- A concrete test-isolation rule instance. -/
def ruleExample : ListenerRule :=
  { listenerArn := "arn:aws:elasticloadbalancing:listener/prod"
    headerName := "counter_no"
    headerValues := ["88888", "99999"]
    targetGroupArn := "arn:aws:elasticloadbalancing:targetgroup/green" }

/-- One `isolateTestTraffic` call on a listener holding at most one copy
of the rule leaves exactly one copy. -/
theorem count_isolateTestTraffic (rules : List ListenerRule) (r : ListenerRule)
    (h : rules.count r ≤ 1) : (isolateTestTraffic rules r).count r = 1 := by
  unfold isolateTestTraffic
  split
  · have h1 : 0 < rules.count r := List.count_pos_iff.mpr (by assumption)
    omega
  · have h0 : rules.count r = 0 := List.count_eq_zero.mpr (by assumption)
    simp [h0]

/-- `isolateTestTraffic` is a no-op on a listener already holding the
rule. -/
theorem isolateTestTraffic_fixed (rules : List ListenerRule) (r : ListenerRule)
    (h : rules.count r = 1) : isolateTestTraffic rules r = rules := by
  unfold isolateTestTraffic
  rw [if_pos (List.count_pos_iff.mp (by omega))]

/-- Iterating `isolateTestTraffic` from a listener holding exactly one
copy of the rule keeps exactly one copy. -/
theorem count_iterate_isolateTestTraffic (r : ListenerRule) (m : Nat) :
    ∀ rules : List ListenerRule, rules.count r = 1 →
      ((fun s => isolateTestTraffic s r)^[m] rules).count r = 1 := by
  induction m with
  | zero => intro rules h; simpa using h
  | succ k ih =>
      intro rules h
      rw [Function.iterate_succ_apply]
      exact ih _ (by rw [isolateTestTraffic_fixed rules r h]; exact h)

/-- C8: isolateTestTraffic is idempotent: any sequence of one or more
repeated identical calls on the same listener leaves exactly one copy
of the test-isolation rule, never duplicates. -/
theorem isolateTestTraffic_idempotent (rules : List ListenerRule)
    (r : ListenerRule) (n : Nat)
    (hclean : rules.count r ≤ 1) (hn : 1 ≤ n) :
    ((fun s => isolateTestTraffic s r)^[n] rules).count r = 1 := by
  obtain ⟨m, rfl⟩ : ∃ m, n = m + 1 := ⟨n - 1, by omega⟩
  rw [Function.iterate_succ_apply]
  exact count_iterate_isolateTestTraffic r m _ (count_isolateTestTraffic rules r hclean)

/-- C8 witness: three identical calls starting from an empty listener
leave exactly one rule. -/
theorem isolateTestTraffic_idempotent_witness :
    ([] : List ListenerRule).count ruleExample ≤ 1 ∧ 1 ≤ 3 ∧
    ((fun s => isolateTestTraffic s ruleExample)^[3] []).count ruleExample = 1 :=
  ⟨by decide, by decide,
   isolateTestTraffic_idempotent [] ruleExample 3 (by decide) (by decide)⟩

/-- Rollback invariant of the cutover state machine: an attempt that
failed because an alarm fired has its production traffic fully on the
slot active before the deployment began and no test-isolation rule. -/
def rolledBack (s : CutoverState) : Prop :=
  s.status = .failedAlarmTriggered →
    s.prodTrafficSlot = s.originalSlot ∧ s.percentShifted = 0 ∧ s.testRuleCount = 0

/-- `cutoverStep` never changes which slot was active before the
deployment began. -/
theorem cutoverStep_originalSlot (s : CutoverState) (e : CutoverEvent) :
    (cutoverStep s e).originalSlot = s.originalSlot := by
  unfold cutoverStep
  split
  · cases e with
    | beforeInstall => rfl
    | afterAllowTestTraffic => rfl
    | beforeAllowTraffic => rfl
    | shiftStep alarmFired =>
        dsimp only
        split
        · rfl
        · split <;> rfl
  · rfl

/-- `cutoverStep` preserves the rollback invariant. -/
theorem cutoverStep_rolledBack (s : CutoverState) (e : CutoverEvent)
    (h : rolledBack s) : rolledBack (cutoverStep s e) := by
  unfold rolledBack at h ⊢
  unfold cutoverStep
  split
  case isTrue hrun =>
    cases e with
    | beforeInstall => intro hst; simp [hrun] at hst
    | afterAllowTestTraffic => intro hst; simp [hrun] at hst
    | beforeAllowTraffic => intro hst; simp [hrun] at hst
    | shiftStep alarmFired =>
        dsimp only
        split
        · intro _; exact ⟨rfl, rfl, rfl⟩
        · split
          · intro hst; simp at hst
          · intro hst; simp [hrun] at hst
  case isFalse hrun => exact h

/-- Running the cutover state machine preserves the rollback
invariant. -/
theorem cutoverRun_rolledBack (es : List CutoverEvent) :
    ∀ s : CutoverState, rolledBack s → rolledBack (cutoverRun s es) := by
  induction es with
  | nil => intro s h; exact h
  | cons e es ih => intro s h; exact ih _ (cutoverStep_rolledBack s e h)

/-- A cutover run never changes which slot was active before the
deployment began. -/
theorem cutoverRun_originalSlot (es : List CutoverEvent) :
    ∀ s : CutoverState, (cutoverRun s es).originalSlot = s.originalSlot := by
  induction es with
  | nil => intro s; rfl
  | cons e es ih =>
      intro s
      rw [show cutoverRun s (e :: es) = cutoverRun (cutoverStep s e) es from rfl,
        ih, cutoverStep_originalSlot]

/-- C9: every deployment aborted mid-shift because a bound alarm fired
ends with the production listener routing 100% of traffic to the slot
active before the deployment began (zero percent on the replacement)
and with no test-isolation rule remaining. -/
theorem alarm_abort_rolls_back (original : Slot) (es : List CutoverEvent)
    (h : (cutoverRun (cutoverInit original) es).status = .failedAlarmTriggered) :
    (cutoverRun (cutoverInit original) es).prodTrafficSlot = original ∧
    (cutoverRun (cutoverInit original) es).percentShifted = 0 ∧
    (cutoverRun (cutoverInit original) es).testRuleCount = 0 := by
  have hinit : rolledBack (cutoverInit original) := by
    intro hst; simp [cutoverInit] at hst
  obtain ⟨h1, h2, h3⟩ := cutoverRun_rolledBack es (cutoverInit original) hinit h
  exact ⟨h1.trans (cutoverRun_originalSlot es (cutoverInit original)), h2, h3⟩

/-- C9 witness: a run that shifts one increment and then observes an
alarm ends failed, fully on the original slot and with no test rule. -/
theorem alarm_abort_rolls_back_witness :
    (cutoverRun (cutoverInit .blue)
      [.beforeInstall, .afterAllowTestTraffic, .beforeAllowTraffic,
       .shiftStep false, .shiftStep true]).status = .failedAlarmTriggered ∧
    ((cutoverRun (cutoverInit .blue)
        [.beforeInstall, .afterAllowTestTraffic, .beforeAllowTraffic,
         .shiftStep false, .shiftStep true]).prodTrafficSlot = .blue ∧
     (cutoverRun (cutoverInit .blue)
        [.beforeInstall, .afterAllowTestTraffic, .beforeAllowTraffic,
         .shiftStep false, .shiftStep true]).percentShifted = 0 ∧
     (cutoverRun (cutoverInit .blue)
        [.beforeInstall, .afterAllowTestTraffic, .beforeAllowTraffic,
         .shiftStep false, .shiftStep true]).testRuleCount = 0) :=
  ⟨by decide,
   alarm_abort_rolls_back .blue
     [.beforeInstall, .afterAllowTestTraffic, .beforeAllowTraffic,
      .shiftStep false, .shiftStep true] (by decide)⟩

/-- A concrete deployment-group record with a valid config name. -/
def gExample : DeploymentGroupRecord :=
  { deploymentGroupName := "books"
    applicationName := "booksApplication"
    blueTargetGroup := "blueTargetGroup"
    greenTargetGroup := "greenTargetGroup"
    prodListenerArn := "arn:aws:elasticloadbalancing:listener/prod"
    testListenerArn := "arn:aws:elasticloadbalancing:listener/test"
    ecsClusterName := "books-cluster"
    ecsServiceName := "books-service"
    deploymentConfigName := "CodeDeployDefault.ECSLinear10PercentEvery1Minutes"
    alarms := ["blueUnhealthyHosts", "greenUnhealthyHosts"]
    terminationWaitTime := 10
    deploymentReadyWaitTime := 0 }

/-- Updating the mutable fields from an input identical to the record
itself changes nothing. -/
theorem updateMutableFields_self (g : DeploymentGroupRecord) :
    updateMutableFields g g = g := rfl

/-- Re-applying the same mutable-field update is a no-op. -/
theorem updateMutableFields_idem (e g : DeploymentGroupRecord) :
    updateMutableFields (updateMutableFields e g) g = updateMutableFields e g := rfl

/-- The in-place update applied by `upsert` to an existing record. -/
theorem upsertApply_name (g a : DeploymentGroupRecord) :
    ((if a.deploymentGroupName == g.deploymentGroupName
      then updateMutableFields a g else a)).deploymentGroupName =
      a.deploymentGroupName := by
  split <;> rfl

/-- C7: registrar upsert is idempotent: whenever an upsert of `g` into a
registry holding at most one group of that name succeeds with result
registry `st2`, repeating the identical upsert on `st2` is a no-op with
the same observable result, and `st2` holds exactly one logical group
of that name — never two. -/
theorem upsert_idempotent (st st2 : List DeploymentGroupRecord)
    (g : DeploymentGroupRecord)
    (huniq : groupsNamed st g.deploymentGroupName ≤ 1)
    (h : upsert st g = .ok st2) :
    upsert st2 g = .ok st2 ∧ groupsNamed st2 g.deploymentGroupName = 1 := by
  unfold upsert at h ⊢
  split at h
  case isFalse hc => exact Except.noConfusion h
  case isTrue hc =>
    rw [if_pos hc]
    cases hfind : st.find? (fun e => e.deploymentGroupName == g.deploymentGroupName) with
    | none =>
        rw [hfind] at h
        dsimp only at h
        injection h with h2
        subst h2
        have hnotin := List.find?_eq_none.mp hfind
        have hfind2 : (st ++ [g]).find?
            (fun e => e.deploymentGroupName == g.deploymentGroupName) = some g := by
          rw [List.find?_append, hfind]
          simp
        rw [hfind2]
        dsimp only
        rw [if_pos (show sameTargetGroupPair g g = true by
          simp [sameTargetGroupPair])]
        constructor
        · congr 1
          rw [List.map_append]
          have hmapst : st.map (fun e =>
              if e.deploymentGroupName == g.deploymentGroupName
              then updateMutableFields e g else e) = st := by
            conv_rhs => rw [← List.map_id st]
            apply List.map_congr_left
            intro a ha
            have hna := hnotin a ha
            simp only [Bool.not_eq_true] at hna
            simp [hna]
          rw [hmapst]
          simp [updateMutableFields_self]
        · unfold groupsNamed
          rw [List.countP_append]
          have hz : st.countP
              (fun e => e.deploymentGroupName == g.deploymentGroupName) = 0 :=
            List.countP_eq_zero.mpr hnotin
          simp [hz]
    | some e =>
        rw [hfind] at h
        dsimp only at h
        split at h
        case isFalse hstg => exact Except.noConfusion h
        case isTrue hstg =>
          injection h with h2
          subst h2
          have hpe : (e.deploymentGroupName == g.deploymentGroupName) = true := by
            simpa using List.find?_some hfind
          have hmem : e ∈ st := List.mem_of_find?_eq_some hfind
          have hpu : ((fun e => e.deploymentGroupName == g.deploymentGroupName) ∘
              (fun e => if e.deploymentGroupName == g.deploymentGroupName
                then updateMutableFields e g else e)) =
              (fun e => e.deploymentGroupName == g.deploymentGroupName) := by
            funext a
            simp only [Function.comp]
            rw [upsertApply_name]
          have hfind2 : (st.map (fun e =>
              if e.deploymentGroupName == g.deploymentGroupName
              then updateMutableFields e g else e)).find?
              (fun e => e.deploymentGroupName == g.deploymentGroupName) =
              some (updateMutableFields e g) := by
            rw [List.find?_map, hpu, hfind]
            dsimp only [Option.map]
            rw [if_pos hpe]
          rw [hfind2]
          dsimp only
          rw [if_pos (show sameTargetGroupPair (updateMutableFields e g) g = true
            from hstg)]
          constructor
          · congr 1
            rw [List.map_map]
            apply List.map_congr_left
            intro a _
            simp only [Function.comp]
            by_cases hc2 : (a.deploymentGroupName == g.deploymentGroupName) = true
            · rw [if_pos hc2,
                if_pos (show ((updateMutableFields a g).deploymentGroupName ==
                  g.deploymentGroupName) = true from hc2)]
              exact updateMutableFields_idem a g
            · rw [if_neg hc2, if_neg hc2]
          · unfold groupsNamed
            rw [List.countP_map]
            rw [show ((fun e => e.deploymentGroupName == g.deploymentGroupName) ∘
              (fun e => if e.deploymentGroupName == g.deploymentGroupName
                then updateMutableFields e g else e)) =
              (fun e => e.deploymentGroupName == g.deploymentGroupName) from hpu]
            have hpos : 0 < st.countP
                (fun e => e.deploymentGroupName == g.deploymentGroupName) :=
              List.countP_pos_iff.mpr ⟨e, hmem, hpe⟩
            unfold groupsNamed at huniq
            omega

/-- C7 witness: upserting a concrete group into the empty registry and
then repeating the identical upsert is a no-op leaving exactly one
group. -/
theorem upsert_idempotent_witness :
    groupsNamed [] gExample.deploymentGroupName ≤ 1 ∧
    upsert [] gExample = .ok [gExample] ∧
    (upsert [gExample] gExample = .ok [gExample] ∧
     groupsNamed [gExample] gExample.deploymentGroupName = 1) :=
  ⟨by decide, by rfl,
   upsert_idempotent [] [gExample] gExample (by decide) (by rfl)⟩

end EcsBlueGreen
